import Mathlib

/-!
Verification of the OtomotoScraper extraction-and-reconciliation engine
(src/OtomotoScraper/scraper.py) against its natural-language specification.

The Python source is shallowly embedded below.  Pure helper functions of the
source become Lean functions over `String` / `List Char`; the database-backed
functions (`get_auction_number`, `insert_into_db`) become explicit functions
over a list of rows, with connection failure modelled as an `Option`/`Bool`
input; the per-listing fragment of a search page is modelled as a record of
the outcomes of the DOM probes (the `BeautifulSoup` selector chains collapse
to "text of the first matching element, already stripped"), and the
downstream pure logic of `extract_cars_from_html` is translated line by line.
-/

set_option maxRecDepth 10000
set_option linter.unusedVariables false

/-! ## Character and string helpers (Python string primitives) -/

/-- Python `str.isspace` characters relevant to `str.strip` (ASCII range;
  the inputs exercised contain only plain spaces). -/
def isPySpace (c : Char) : Bool :=
  c == ' ' || c == '\t' || c == '\n' || c == '\r' ||
  c == Char.ofNat 11 || c == Char.ofNat 12

/-- Python `str.strip()` on a character list. -/
def pyStripChars (cs : List Char) : List Char :=
  ((cs.dropWhile isPySpace).reverse.dropWhile isPySpace).reverse

/-- Python `str.strip()`. -/
def pyStrip (s : String) : String :=
  ⟨pyStripChars s.data⟩

/-- ASCII case folding, as used by Python `str.lower()` on the ASCII-cased
  inputs exercised here. -/
def asciiLowerChars (cs : List Char) : List Char :=
  cs.map Char.toLower

/-- Python `str.lower()` (ASCII fragment). -/
def pyLower (s : String) : String :=
  ⟨asciiLowerChars s.data⟩

/-- Python `str.capitalize()` (ASCII fragment): first character upper-cased,
  the rest lower-cased. -/
def pyCapitalize (s : String) : String :=
  match s.data with
  | [] => ""
  | c :: rest => ⟨c.toUpper :: asciiLowerChars rest⟩

/-- Does `pre` occur as a prefix of `l`?  (Python `str.startswith`.) -/
def startsWithChars : List Char → List Char → Bool
  | [], _ => true
  | _ :: _, [] => false
  | a :: as_, b :: bs => a == b && startsWithChars as_ bs

/-- Python `needle in hay` substring test on character lists. -/
def hasSub : List Char → List Char → Bool
  | hay, needle =>
    startsWithChars needle hay ||
      match hay with
      | [] => false
      | _ :: t => hasSub t needle

/-- Python `int` of a run of decimal digit characters. -/
def natOfDigits (cs : List Char) : Nat :=
  cs.foldl (fun n c => n * 10 + (c.toNat - 48)) 0

/-- Python `str.split(sep)` for a one-character separator. -/
def splitOnChar (sep : Char) : List Char → List (List Char)
  | [] => [[]]
  | c :: rest =>
    let r := splitOnChar sep rest
    if c == sep then [] :: r
    else
      match r with
      | h :: t => (c :: h) :: t
      | [] => [[c]]

/-! ## scraper.py: `parse_location` (lines 255-259) -/

/-- Python `str.rstrip(")")`: remove every trailing `)` character. -/
def rstripParens (cs : List Char) : List Char :=
  (cs.reverse.dropWhile (fun c => c == ')')).reverse

/-- scraper.py `parse_location`: if the string contains `(` and ends with
  `)`, split at the first `(`, stripping the trailing parenthesis from the
  second part; otherwise return `(text.strip(), "")`. -/
def parse_location (s : String) : String × String :=
  if s.data.contains '(' && (s.data.getLast? == some ')') then
    let city := s.data.takeWhile (fun c => c ≠ '(')
    let rest := (s.data.dropWhile (fun c => c ≠ '(')).drop 1
    (⟨pyStripChars city⟩, ⟨pyStripChars (rstripParens rest)⟩)
  else
    (pyStrip s, "")

/-- Claim C5 counterexample: `parse_location` does not recognize the
  comma-separated format.  On `"Zator, oświęcimski, Małopolskie"` it returns
  the whole string as the city and an empty region, not
  `("Zator", "Małopolskie")` as the claim states. -/
theorem c5_comma_format_counterexample :
    parse_location "Zator, oświęcimski, Małopolskie" =
      ("Zator, oświęcimski, Małopolskie", "") ∧
    parse_location "Zator, oświęcimski, Małopolskie" ≠
      ("Zator", "Małopolskie") := by
  constructor
  · rfl
  · decide

/-- Claim C5 (amended): `parse_location` supports only the parenthesized
  trailing-region format.  If the text contains `(` and ends with `)`, the
  city is the stripped text before the first `(` and the region is the
  stripped text after it with trailing `)` removed; every other format —
  including the comma-separated ones — yields `(text.strip(), "")`.
  In particular `parse_location "Wrocław (Dolnośląskie)" =
  ("Wrocław", "Dolnośląskie")`. -/
theorem c5_parse_location_amended :
    parse_location "Wrocław (Dolnośląskie)" = ("Wrocław", "Dolnośląskie") ∧
    (∀ s : String,
      ¬(s.data.contains '(' = true ∧ s.data.getLast? = some ')') →
        parse_location s = (pyStrip s, "")) := by
  refine ⟨rfl, ?_⟩
  intro s h
  unfold parse_location
  rw [if_neg]
  intro hc
  rw [Bool.and_eq_true, beq_iff_eq] at hc
  exact h ⟨hc.1, hc.2⟩

/-- Claim C5 amended-theorem witness: the unrecognized-format branch applied
  to a concrete comma-separated input. -/
theorem c5_parse_location_amended_witness :
    parse_location "Zator, Małopolskie" = ("Zator, Małopolskie", "") := by
  have h := c5_parse_location_amended.2 "Zator, Małopolskie" (by decide)
  simpa using h

/-! ## scraper.py: `fuzzy_contains` / `extract_version` (lines 30-43, 239-253)

`difflib.SequenceMatcher` (with `isjunk=None` and strings far below the
autojunk threshold of 200 characters) computes the total number `M` of
matched characters via recursive longest-matching-block decomposition and
compares `2*M / (len(a)+len(b))` against the cutoff.  The longest matching
block is the maximum-length common substring, ties broken by the earliest
start in `a`, then the earliest start in `b`.  The cutoff comparison
`ratio() >= 0.9` is embedded exactly as the rational inequality
`9 * T <= 10 * (2 * M)` (both sides of the float comparison are exact at
every input exercised, and Python returns `1.0` when `T = 0`). -/

/-- Length of the common prefix of two character lists. -/
def commonPrefixLen : List Char → List Char → Nat
  | a :: as_, b :: bs => if a == b then commonPrefixLen as_ bs + 1 else 0
  | _, _ => 0

/-- `SequenceMatcher.find_longest_match` over full ranges: the longest
  common substring as `(start in a, start in b, length)`, ties broken by
  the earliest start in `a`, then in `b`. -/
def findLongestMatch (a b : List Char) : Nat × Nat × Nat :=
  (List.range a.length).foldl
    (fun best i =>
      (List.range b.length).foldl
        (fun best j =>
          let k := commonPrefixLen (a.drop i) (b.drop j)
          if k > best.2.2 then (i, j, k) else best)
        best)
    (0, 0, 0)

/-- Total size of the matching blocks of `SequenceMatcher`
  (`get_matching_blocks` recursion), with explicit fuel; each recursive
  call strictly shrinks both lists, so fuel `|a| + |b| + 1` is exact. -/
def matchTotalFuel : Nat → List Char → List Char → Nat
  | 0, _, _ => 0
  | fuel + 1, a, b =>
    let m := findLongestMatch a b
    let i := m.1
    let j := m.2.1
    let k := m.2.2
    if k = 0 then 0
    else
      matchTotalFuel fuel (a.take i) (b.take j) + k +
        matchTotalFuel fuel (a.drop (i + k)) (b.drop (j + k))

/-- Total number of matched characters between two character lists. -/
def matchTotal (a b : List Char) : Nat :=
  matchTotalFuel (a.length + b.length + 1) a b

/-- The comparison `SequenceMatcher.ratio() >= num/den`: `ratio` is
  `2*M/T` when `T > 0` and `1.0` when `T = 0`. -/
def pyRatioGe (m t num den : Nat) : Bool :=
  if t = 0 then decide (num ≤ den) else decide (num * t ≤ den * (2 * m))

/-- scraper.py `fuzzy_contains` with the cutoff given as the rational
  `num/den`: lower-case both strings and slide a window of the candidate's
  length across the text, accepting if any window's similarity meets the
  cutoff.  (The source's float default `cutoff=0.9` is `num = 9`,
  `den = 10`; every call site passes 0.9.) -/
def fuzzy_contains (candidate text : String) (num den : Nat) : Bool :=
  let c := asciiLowerChars candidate.data
  let t := asciiLowerChars text.data
  (List.range (t.length + 1 - c.length)).any fun i =>
    let sub := (t.drop i).take c.length
    pyRatioGe (matchTotal c sub) (c.length + sub.length) num den

/-- scraper.py `CANDIDATE_VERSIONS` (lines 30-43). -/
def CANDIDATE_VERSIONS : List String :=
  ["Elegance", "Performance Line", "Prestige", "Ultra Prestige", "Louvre",
   "Opera", "Rivoli", "Grand Chic", "Bastille", "Pallas", "Etoile",
   "La Premiere"]

/-- The loop body of scraper.py `extract_version`: walk the vocabulary in
  declaration order, returning the first entry fuzzily contained in the
  title or, failing that, in the description. -/
def extractVersionGo : List String → String → String → String
  | [], _, _ => ""
  | c :: cs, n, d =>
    if fuzzy_contains c n 9 10 || fuzzy_contains c d 9 10 then c
    else extractVersionGo cs n d

/-- scraper.py `extract_version` (lines 249-253). -/
def extract_version (full_name description : String) : String :=
  extractVersionGo CANDIDATE_VERSIONS full_name description

/-- The loop returns the first vocabulary entry that clears the threshold,
  and the empty string when none does. -/
theorem extractVersionGo_eq_find (vs : List String) (n d : String) :
    extractVersionGo vs n d =
      (vs.find? fun c =>
        fuzzy_contains c n 9 10 || fuzzy_contains c d 9 10).getD "" := by
  induction vs with
  | nil => rfl
  | cons c cs ih =>
    by_cases h : (fuzzy_contains c n 9 10 || fuzzy_contains c d 9 10) = true
    · simp [extractVersionGo, List.find?, h]
    · simp only [extractVersionGo, List.find?, h, Bool.false_eq_true,
        if_false, ih]

/-- Claim C6: `extract_version` evaluates the vocabulary entries in
  declaration order, returning the first entry for which some window of the
  entry's length in the lower-cased title or description has similarity at
  least 0.9 (first match wins), and the empty string when no entry clears
  the threshold; and the title `"DS 7 Crossback Preformance Line"` with an
  empty description matches `"Performance Line"` despite the misspelling. -/
theorem c6_extract_version_first_match :
    (∀ full_name description : String,
      extract_version full_name description =
        (CANDIDATE_VERSIONS.find? fun c =>
          fuzzy_contains c full_name 9 10 ||
            fuzzy_contains c description 9 10).getD "") ∧
    extract_version "DS 7 Crossback Preformance Line" "" =
      "Performance Line" := by
  constructor
  · intro n d
    exact extractVersionGo_eq_find CANDIDATE_VERSIONS n d
  · decide

/-! ## scraper.py: `determine_engine_capacity` (lines 261-287)

The function lower-cases `full_name + " " + full_desc`, checks three lists
of marker substrings, then falls back to the first power figure matched by
the regular expression `(\d+)\s*(?:km|hp|ps|cv|ch)`.  When every strategy
fails, the Python function falls off the end and implicitly returns `None`;
this is modelled by the `Option Nat` result.  (The `fuel_type` parameter is
accepted and ignored, exactly as in the source.) -/

/-- Marker substrings for the 1.6-litre engines (source method 1). -/
def CAP_TERMS_16 : List String :=
  ["1.6", "1,6", "e-tense", "etense", "phev", "hybrid", "plug-in", "hybryda"]

/-- Marker substrings for the 2.0-litre engines. -/
def CAP_TERMS_20 : List String :=
  ["2.0", "2,0", "180", "hdi 180", "bluehdi 180"]

/-- Marker substrings for the 1.5-litre engines. -/
def CAP_TERMS_15 : List String :=
  ["1.5", "1,5", "130", "hdi 130", "bluehdi 130"]

/-- Do the first two characters spell one of the power units
  `km|hp|ps|cv|ch`?  (All alternatives have two characters, so the regex
  alternation reduces to this test.) -/
def isPowerUnit : List Char → Bool
  | a :: b :: _ =>
    (a == 'k' && b == 'm') || (a == 'h' && b == 'p') ||
    (a == 'p' && b == 's') || (a == 'c' && b == 'v') ||
    (a == 'c' && b == 'h')
  | _ => false

/-- First match of the regular expression `(\d+)\s*(?:km|hp|ps|cv|ch)` :
  the leftmost maximal digit run followed (after optional whitespace) by a
  power unit.  Shortening the digit capture or the whitespace run cannot
  rescue a failed unit test (no unit starts with a digit or a space), so
  the backtracking regex engine reduces to this scan. -/
def firstPowerMatchFuel : Nat → List Char → Option Nat
  | 0, _ => none
  | _, [] => none
  | fuel + 1, c :: rest =>
    if c.isDigit then
      let run := c :: rest.takeWhile Char.isDigit
      let after := rest.dropWhile Char.isDigit
      if isPowerUnit (after.dropWhile isPySpace) then some (natOfDigits run)
      else firstPowerMatchFuel fuel after
    else firstPowerMatchFuel fuel rest

/-- First power-figure match; the scan advances at least one character per
  step, so fuel `|cs| + 1` is exact. -/
def firstPowerMatch (cs : List Char) : Option Nat :=
  firstPowerMatchFuel (cs.length + 1) cs

/-- scraper.py `determine_engine_capacity`: marker substrings first, then
  the first power figure (≥ 200 hybrid, ≥ 150 2.0-litre, otherwise
  1.5-litre); `none` when everything fails (Python's implicit `None`). -/
def determine_engine_capacity (full_name full_desc fuel_type : String) :
    Option Nat :=
  let combined := asciiLowerChars (full_name ++ " " ++ full_desc).data
  if CAP_TERMS_16.any (fun t => hasSub combined t.data) then some 1598
  else if CAP_TERMS_20.any (fun t => hasSub combined t.data) then some 1997
  else if CAP_TERMS_15.any (fun t => hasSub combined t.data) then some 1499
  else
    match firstPowerMatch combined with
    | some power =>
      if power ≥ 200 then some 1598
      else if power ≥ 150 then some 1997
      else some 1499
    | none => none

/-- Claim C4 (code bug): on a listing whose title and description contain
  none of the capacity markers and no power figure — for example the bare
  title `"DS 7 Crossback"` with an empty description — every extraction
  strategy fails, and `determine_engine_capacity` returns Python `None`
  (modelled `none`) instead of the unknown sentinel `0`, contradicting its
  own docstring ("Only 3 possible values") and the specification's sentinel
  discipline.  The earlier sentinel-respecting value computed at lines
  576-596 of the source is unconditionally overwritten by this result at
  line 718. -/
theorem c4_capacity_missing_returns_none :
    determine_engine_capacity "DS 7 Crossback" "" "Benzyna" = none ∧
    ∀ sentinel : Nat,
      determine_engine_capacity "DS 7 Crossback" "" "Benzyna" ≠
        some sentinel := by
  constructor
  · rfl
  · intro sentinel h
    rw [show determine_engine_capacity "DS 7 Crossback" "" "Benzyna" = none
          from rfl] at h
    exact Option.noConfusion h


/-! ## scraper.py: the `Car` record (lines 45-63) -/

/-- scraper.py `Car` dataclass.  `engine_capacity` is declared `int` in the
  source but actually receives the result of `determine_engine_capacity`,
  which can be Python `None`; it is therefore modelled as `Option Nat`. -/
structure Car where
  auction_id : String
  link : String
  full_name : String
  description : String
  year : Nat
  mileage_km : Nat
  engine_capacity : Option Nat
  engine_power : String
  fuel_type : String
  price_pln : Nat
  seller_type : String
  city : String
  voivodship : String
  scrape_date : String
  listing_status : String
  version : String
  data_id : String
deriving DecidableEq, Repr

/-! ## scraper.py: database functions (lines 104-220)

The persistent store is modelled as the list of rows of the `Listings`
table in insertion order.  A row records the reconciliation columns
(`AuctionKey`, `AuctionNumber`, the identity column `ListingID`, and the
`CreatedDate` stamped at insertion time) together with the inserted `Car`
payload.  A failed connection (`get_sql_connection()` returning `None`) is
modelled by passing `none` / `false` for the connection argument; the
`except` paths of the source collapse onto the same failure results. -/

/-- One row of the `Listings` table. -/
structure DBRow where
  listingId : Nat
  auctionKey : String
  auctionNumber : Nat
  createdDate : Nat
  car : Car
deriving DecidableEq, Repr

/-- Combining step of `SELECT TOP 1 ... ORDER BY CreatedDate DESC`: keep
  the row with the later creation date (the first one seen, on ties). -/
def dbPick (acc : Option DBRow) (r : DBRow) : Option DBRow :=
  match acc with
  | none => some r
  | some b => if r.createdDate > b.createdDate then some r else some b

/-- The query `SELECT TOP 1 AuctionNumber FROM Listings WHERE AuctionKey =
  %s ORDER BY CreatedDate DESC` (scraper.py line 122): the most recently
  created row holding the given key, if any. -/
def selectTop1 (db : List DBRow) (key : String) : Option DBRow :=
  (db.filter fun r => r.auctionKey == key).foldl dbPick none

/-- The query `SELECT ISNULL(MAX(AuctionNumber), 0) FROM Listings`
  (scraper.py line 131). -/
def maxNumber (db : List DBRow) : Nat :=
  db.foldl (fun m r => max m r.auctionNumber) 0

/-- scraper.py `get_auction_number` (lines 108-149): on any failure to
  reach the store (no connection, or a query error — both of which return
  through the `except` branch) the reserved value `1000000` is returned;
  otherwise the number of the most recent row holding the key, or
  `max + 1` for an unseen key. -/
def get_auction_number (conn : Option (List DBRow)) (auction_key : String) :
    Nat :=
  match conn with
  | none => 1000000
  | some db =>
    match selectTop1 db auction_key with
    | some row => row.auctionNumber
    | none => maxNumber db + 1

/-- scraper.py `compute_auction_key` (lines 104-106) computes
  `hashlib.md5(url.encode()).hexdigest()`.  The MD5 digest is an external
  library call; it is modelled by the identity injection on the URL, which
  preserves the only properties the engine relies on: the key is a
  deterministic function of the URL, and distinct URLs in a run yield
  distinct keys. -/
def compute_auction_key (url : String) : String :=
  url

/-- scraper.py `insert_into_db` (lines 151-220): on a successful
  connection the car is unconditionally inserted — the auction key is
  computed from the link, the auction number resolved by
  `get_auction_number` (over its own connection, `connLookup`), a fresh
  identity value `|db| + 1` is assigned, and `SCOPE_IDENTITY()` is
  returned.  There is no same-day existence check.  A failed connection
  returns `None` and leaves the table unchanged. -/
def insert_into_db (connMain : Bool) (connLookup : Bool)
    (db : List DBRow) (today : Nat) (car : Car) : Option Nat × List DBRow :=
  if connMain then
    let auction_key := compute_auction_key car.link
    let auction_number :=
      get_auction_number (if connLookup then some db else none) auction_key
    (some (db.length + 1),
      db ++ [⟨db.length + 1, auction_key, auction_number, today, car⟩])
  else (none, db)

/-- `dbPick` always returns a row: the later-dated of its arguments (the
  previous one on ties), which bounds both arguments from above. -/
theorem dbPick_eq (acc : Option DBRow) (x : DBRow) :
    ∃ c, dbPick acc x = some c ∧ x.createdDate ≤ c.createdDate ∧
      (∀ b, acc = some b → b.createdDate ≤ c.createdDate) ∧
      (c = x ∨ acc = some c) := by
  cases acc with
  | none =>
    exact ⟨x, rfl, Nat.le_refl _, (by intro b hb; cases hb), Or.inl rfl⟩
  | some b =>
    by_cases h : x.createdDate > b.createdDate
    · refine ⟨x, by simp [dbPick, h], Nat.le_refl _, ?_, Or.inl rfl⟩
      intro b' hb'
      injection hb' with e
      subst e
      exact Nat.le_of_lt h
    · refine ⟨b, by simp [dbPick, h], Nat.le_of_not_lt h, ?_, Or.inr rfl⟩
      intro b' hb'
      injection hb' with e
      subst e
      exact Nat.le_refl _

/-- A fold of `dbPick` that produces a row produced either the accumulator
  or a member of the list, and the result's date bounds every list member
  and the accumulator. -/
theorem foldl_dbPick_spec :
    ∀ (l : List DBRow) (acc : Option DBRow) (r : DBRow),
      l.foldl dbPick acc = some r →
        (acc = some r ∨ r ∈ l) ∧
        (∀ x ∈ l, x.createdDate ≤ r.createdDate) ∧
        (∀ b, acc = some b → b.createdDate ≤ r.createdDate) := by
  intro l
  induction l with
  | nil =>
    intro acc r h
    simp only [List.foldl_nil] at h
    refine ⟨Or.inl h, by simp, ?_⟩
    intro b hb
    rw [h] at hb
    injection hb with e
    subst e
    exact Nat.le_refl _
  | cons x xs ih =>
    intro acc r h
    simp only [List.foldl_cons] at h
    obtain ⟨h1, h2, h3⟩ := ih (dbPick acc x) r h
    obtain ⟨c, hc, hxc, hbc, hcx⟩ := dbPick_eq acc x
    have hcr : c.createdDate ≤ r.createdDate := h3 c hc
    refine ⟨?_, ?_, ?_⟩
    · cases h1 with
      | inl hd =>
        rw [hc] at hd
        injection hd with e
        subst e
        cases hcx with
        | inl hx => exact Or.inr (hx ▸ List.mem_cons_self x xs)
        | inr hacc => exact Or.inl hacc
      | inr hm => exact Or.inr (List.mem_cons_of_mem x hm)
    · intro y hy
      rcases List.mem_cons.mp hy with hyx | hyxs
      · subst hyx
        exact Nat.le_trans hxc hcr
      · exact h2 y hyxs
    · intro b hb
      exact Nat.le_trans (hbc b hb) hcr

/-- A fold of `dbPick` whose accumulator is a row returns a row. -/
theorem foldl_dbPick_isSome :
    ∀ (l : List DBRow) (b : DBRow), (l.foldl dbPick (some b)).isSome := by
  intro l
  induction l with
  | nil => intro b; rfl
  | cons x xs ih =>
    intro b
    simp only [List.foldl_cons]
    obtain ⟨c, hc, -⟩ := dbPick_eq (some b) x
    rw [hc]
    exact ih c

/-- Folding `max` over auction numbers strictly below a bound stays
  strictly below the bound. -/
theorem foldl_max_lt :
    ∀ (l : List DBRow) (acc B : Nat), acc < B →
      (∀ r ∈ l, r.auctionNumber < B) →
      l.foldl (fun m r => max m r.auctionNumber) acc < B := by
  intro l
  induction l with
  | nil => intro acc B hacc _; simpa using hacc
  | cons x xs ih =>
    intro acc B hacc hall
    simp only [List.foldl_cons]
    refine ih _ B ?_ ?_
    · exact Nat.max_lt.mpr ⟨hacc, hall x (List.mem_cons_self x xs)⟩
    · intro r hr
      exact hall r (List.mem_cons_of_mem x hr)

/-- Claim C2: with a reachable store, `get_auction_number` resolves an
  existing key to the number of the most recent row holding it (so every
  subsequent observation of the key resolves to the number bound at
  insertion), and an unseen key to `max(existing numbers) + 1`, which is
  `1` for an empty store. -/
theorem c2_get_auction_number_resolution :
    ∀ (db : List DBRow) (key : String),
      (db = [] → get_auction_number (some db) key = 1) ∧
      ((∀ r ∈ db, r.auctionKey ≠ key) →
        get_auction_number (some db) key = maxNumber db + 1) ∧
      (∀ row, selectTop1 db key = some row →
        row ∈ db ∧ row.auctionKey = key ∧
        (∀ r ∈ db, r.auctionKey = key → r.createdDate ≤ row.createdDate) ∧
        get_auction_number (some db) key = row.auctionNumber) ∧
      ((∃ r ∈ db, r.auctionKey = key) → (selectTop1 db key).isSome) ∧
      (∀ (id n d : Nat) (car : Car), (∀ r ∈ db, r.createdDate < d) →
        get_auction_number (some (db ++ [⟨id, key, n, d, car⟩])) key = n) := by
  intro db key
  refine ⟨?_, ?_, ?_, ?_, ?_⟩
  · rintro rfl
    rfl
  · intro hall
    have hfil : (db.filter fun r => r.auctionKey == key) = [] := by
      rw [List.filter_eq_nil_iff]
      intro r hr
      simpa using hall r hr
    simp [get_auction_number, selectTop1, hfil]
  · intro row hrow
    obtain ⟨h1, h2, -⟩ :=
      foldl_dbPick_spec (db.filter fun r => r.auctionKey == key) none row hrow
    have hmem : row ∈ db.filter fun r => r.auctionKey == key := by
      rcases h1 with h | h
      · cases h
      · exact h
    obtain ⟨hin, hkey⟩ := List.mem_filter.mp hmem
    refine ⟨hin, by simpa using hkey, ?_, ?_⟩
    · intro r hr hrkey
      exact h2 r (List.mem_filter.mpr ⟨hr, by simpa using hrkey⟩)
    · simp only [get_auction_number, hrow]
  · rintro ⟨r, hr, hkey⟩
    have hmem : r ∈ db.filter fun x => x.auctionKey == key :=
      List.mem_filter.mpr ⟨hr, by simpa using hkey⟩
    obtain ⟨h, t, hht⟩ :=
      List.exists_cons_of_ne_nil (List.ne_nil_of_mem hmem)
    unfold selectTop1
    rw [hht]
    simpa only [List.foldl_cons, dbPick] using foldl_dbPick_isSome t h
  · intro id n d car hall
    have hx : ((⟨id, key, n, d, car⟩ : DBRow).auctionKey == key) = true := by
      simp
    have hfil : ((db ++ [(⟨id, key, n, d, car⟩ : DBRow)]).filter
        fun r => r.auctionKey == key) =
        (db.filter fun r => r.auctionKey == key) ++
          [(⟨id, key, n, d, car⟩ : DBRow)] := by
      rw [List.filter_append]
      simp [hx]
    have hsel : selectTop1 (db ++ [(⟨id, key, n, d, car⟩ : DBRow)]) key =
        some (⟨id, key, n, d, car⟩ : DBRow) := by
      unfold selectTop1
      rw [hfil, List.foldl_append]
      cases hres : (db.filter fun r => r.auctionKey == key).foldl dbPick none
        with
      | none => rfl
      | some b =>
        obtain ⟨h1, -, -⟩ := foldl_dbPick_spec _ none b hres
        have hb : b ∈ db := by
          rcases h1 with h | h
          · cases h
          · exact (List.mem_filter.mp h).1
        have : b.createdDate < d := hall b hb
        simp only [List.foldl_cons, List.foldl_nil, dbPick]
        rw [if_pos this]
    simp [get_auction_number, hsel]

/-- Example car used to populate concrete store rows. -/
def exCar0 : Car :=
  ⟨"", "", "", "", 0, 0, none, "", "", 0, "", "", "", "", "", "", ""⟩

/-- Claim C2 witness: an empty store yields `1`; an unseen key after one
  row numbered `3` yields `4`; a key with two historical rows resolves to
  the most recent row's number `7`; and after appending a row binding the
  key to `9`, the key resolves to `9`. -/
theorem c2_get_auction_number_resolution_witness :
    get_auction_number (some []) "k" = 1 ∧
    get_auction_number (some [⟨1, "a", 3, 10, exCar0⟩]) "k" = 4 ∧
    get_auction_number
      (some [⟨1, "k", 3, 10, exCar0⟩, ⟨2, "k", 7, 20, exCar0⟩]) "k" = 7 ∧
    get_auction_number
      (some ([⟨1, "k", 3, 10, exCar0⟩] ++ [⟨2, "k", 9, 30, exCar0⟩])) "k" =
      9 := by
  refine ⟨?_, ?_, ?_, ?_⟩
  · exact (c2_get_auction_number_resolution [] "k").1 rfl
  · exact ((c2_get_auction_number_resolution [⟨1, "a", 3, 10, exCar0⟩]
      "k").2.1 (by decide)).trans rfl
  · exact ((c2_get_auction_number_resolution
      [⟨1, "k", 3, 10, exCar0⟩, ⟨2, "k", 7, 20, exCar0⟩] "k").2.2.1
      ⟨2, "k", 7, 20, exCar0⟩ (by decide)).2.2.2
  · exact (c2_get_auction_number_resolution [⟨1, "k", 3, 10, exCar0⟩]
      "k").2.2.2.2 2 9 30 exCar0 (by decide)

/-- Claim C3: when the persistence collaborator cannot be reached (the
  connection is `none`, covering both the failed-connection and the
  query-exception paths of the source), `get_auction_number` returns the
  reserved value `1000000` without raising; and as long as every genuinely
  assigned number in the store is below `999999` — which sequential
  assignment from `1` guarantees for under a million listings — a
  successful lookup can never return the sentinel, so the sentinel remains
  distinguishable from every really assigned sequence number. -/
theorem c3_sentinel_on_failure :
    (∀ key, get_auction_number none key = 1000000) ∧
    (∀ (db : List DBRow) (key : String),
      (∀ r ∈ db, r.auctionNumber < 999999) →
        get_auction_number (some db) key ≠ 1000000) := by
  refine ⟨fun _ => rfl, ?_⟩
  intro db key hall
  cases hsel : selectTop1 db key with
  | some row =>
    obtain ⟨h1, h2, -⟩ :=
      foldl_dbPick_spec (db.filter fun r => r.auctionKey == key) none row hsel
    have hmem : row ∈ db := by
      rcases h1 with h | h
      · cases h
      · exact (List.mem_filter.mp h).1
    have : row.auctionNumber < 999999 := hall row hmem
    simp only [get_auction_number, hsel]
    omega
  | none =>
    have : maxNumber db < 999999 :=
      foldl_max_lt db 0 999999 (by omega) hall
    simp only [get_auction_number, hsel, maxNumber] at *
    omega

/-- Claim C3 witness: the sentinel on a failed connection, and a concrete
  reachable store on which the sentinel is not returned. -/
theorem c3_sentinel_on_failure_witness :
    get_auction_number none "k" = 1000000 ∧
    get_auction_number (some [⟨1, "a", 5, 1, exCar0⟩]) "k" ≠ 1000000 := by
  exact ⟨c3_sentinel_on_failure.1 "k",
    c3_sentinel_on_failure.2 [⟨1, "a", 5, 1, exCar0⟩] "k" (by decide)⟩

/-- Example car with a product detail link, for the reconciliation claims. -/
def c1Car : Car :=
  ⟨"", "https://www.otomoto.pl/osobowe/oferta/ds-automobiles-ds-7-x.html",
    "DS 7", "", 2020, 50000, none, "", "Benzyna", 0, "Firma", "Nieznana",
    "Nieznane", "2024-01-01 10:00:00", "Active", "", ""⟩

/-- Claim C1 counterexample: `insert_into_db` performs no same-day check.
  Re-observing the same listing on the same calendar day inserts a second
  row: after two successful calls for the same car on day `5`, the table
  holds two rows for the pair `(auction_number = 1, day = 5)`, and the
  second call returned the fresh identifier `2`, not the existing row's
  identifier `1`. -/
theorem c1_same_day_duplicate_rows :
    (insert_into_db true true [] 5 c1Car).1 = some 1 ∧
    (insert_into_db true true (insert_into_db true true [] 5 c1Car).2 5
      c1Car).1 = some 2 ∧
    ((insert_into_db true true (insert_into_db true true [] 5 c1Car).2 5
        c1Car).2.filter fun r =>
          r.auctionNumber == 1 && r.createdDate == 5).length = 2 := by
  refine ⟨rfl, rfl, ?_⟩
  decide

/-- Claim C1 (amended): before inserting there is no same-day existence
  check.  On a successful connection `insert_into_db` unconditionally
  appends one new row — binding the key computed from the link and the
  number resolved by `get_auction_number` — and returns the fresh
  identifier `|db| + 1`; a same-day re-observation therefore creates an
  additional row rather than reusing the existing identifier.  A failed
  connection returns `None` and leaves the store unchanged. -/
theorem c1_insert_always_appends :
    ∀ (connLookup : Bool) (db : List DBRow) (today : Nat) (car : Car),
      insert_into_db true connLookup db today car =
        (some (db.length + 1),
          db ++ [⟨db.length + 1, compute_auction_key car.link,
            get_auction_number (if connLookup then some db else none)
              (compute_auction_key car.link), today, car⟩]) ∧
      insert_into_db false connLookup db today car = (none, db) := by
  intro connLookup db today car
  exact ⟨rfl, rfl⟩

/-! ## scraper.py: constants and `basic_url_cleanup` (lines 19-27, 229-237) -/

/-- scraper.py `REQUIRED_PREFIX` (line 27). -/
def REQUIRED_PREFIX : String :=
  "https://www.otomoto.pl/osobowe/oferta/ds-automobiles-ds-7"

/-- scraper.py `EXPECTED_PER_PAGE` (line 21). -/
def EXPECTED_PER_PAGE : Nat := 32

/-- scraper.py `MAX_PAGES_TO_CHECK` (line 22). -/
def MAX_PAGES_TO_CHECK : Nat := 30

/-- scraper.py `basic_url_cleanup`: strip, then resolve a site-relative URL
  against the site origin. -/
def basic_url_cleanup (url : String) : String :=
  let u := pyStrip url
  if startsWithChars "/".data u.data then "https://www.otomoto.pl" ++ u
  else u

/-! ## scraper.py: `extract_cars_from_html` (lines 428-859)

One listing fragment is modelled as the record of the outcomes of the
`BeautifulSoup` probes the extractor performs, each field holding the
`get_text(strip=True)` result of the first matching element (`none` when
every selector strategy for that probe missed), except for the links,
which carry `(href, stripped text)` pairs in document order.  The pure
logic downstream of the probes is translated statement by statement.
The dead sentinel-respecting capacity computed at source lines 576-596 is
unconditionally overwritten at line 718 and is therefore not modelled.
The `try/except` around the loop body only catches exceptions raised by
the DOM library, which the pure model cannot raise. -/

/-- One listing fragment, as seen through the extractor's DOM probes. -/
structure Listing where
  dataId : String
  h2Text : Option String
  titleLink : Option (String × String)
  otherLinks : List (String × String)
  prominentText : Option String
  descText : Option String
  yearTagText : Option String
  yearRegexMatches : List Nat
  mileageTagText : Option String
  fuelTagText : Option String
  fuelKeyword : Option String
  priceTagText : Option String
  locationTagText : Option String
  sellerText : Option String
deriving DecidableEq, Repr

/-- Link resolution (source lines 486-505): the link inside the title
  element if any, else the first fragment link whose href mentions
  `oferta`, `ds-7` or `ds7`, else the first link at all. -/
def resolveATag (l : Listing) : Option (String × String) :=
  match l.titleLink with
  | some t => some t
  | none =>
    match l.otherLinks.find? (fun p =>
        hasSub p.1.data "oferta".data || hasSub p.1.data "ds-7".data ||
          hasSub p.1.data "ds7".data) with
    | some t => some t
    | none => l.otherLinks.head?

/-- URL filter (source lines 510-517): keep the listing when the cleaned
  link starts with the required product detail-page URL, or — the source's
  explicit relaxation — merely mentions `ds-7` or `ds7`. -/
def passesUrlFilter (u : String) : Bool :=
  startsWithChars REQUIRED_PREFIX.data u.data ||
    hasSub u.data "ds-7".data || hasSub u.data "ds7".data

/-- Title selection (source lines 519-532): link text if non-empty, else
  the title element's text, else the first prominent tag's text, else the
  hard-coded placeholder. -/
def computeFullName (l : Listing) (linkText : String) : String :=
  if linkText ≠ "" then linkText
  else
    match l.h2Text with
    | some t => t
    | none => l.prominentText.getD "DS 7 Crossback (title not found)"

/-- Description separators tried in order (source line 566). -/
def SEPARATORS : List Char := ['•', '·', '●', '|', '-', ',']

/-- Split the description at a separator, strip every part and drop the
  empty ones (source line 568). -/
def splitParts (fd : String) (sep : Char) : List String :=
  ((splitOnChar sep fd.data).map
    (fun p => (⟨pyStripChars p⟩ : String))).filter (fun p => !(p == ""))

/-- The `for separator ... else` loop (source lines 566-573): the first
  separator present in the description that yields at least two parts
  wins; otherwise the whole description is the single part (or no part at
  all when it is empty). -/
def computePartsGo (fd : String) : List Char → List String
  | [] => if fd = "" then [] else [fd]
  | sep :: rest =>
    if fd.data.contains sep then
      let ps := splitParts fd sep
      if ps.length ≥ 2 then ps else computePartsGo fd rest
    else computePartsGo fd rest

/-- Description parts of a listing. -/
def computeParts (fd : String) : List String :=
  computePartsGo fd SEPARATORS

/-- Engine-power extraction (source lines 599-608): with at least two
  parts, the first part mentioning a power unit, else the second part. -/
def computeEnginePower (parts : List String) : String :=
  if parts.length ≥ 2 then
    match parts.find? (fun p =>
        ["km", "kw", "hp", "ps", "cv"].any
          (fun pat => hasSub (pyLower p).data pat.data)) with
    | some p => pyStrip p
    | none => pyStrip (parts.getD 1 "")
  else ""

/-- Description rebuild (source lines 611-614). -/
def computeDescription (parts : List String) (full_desc : String) : String :=
  if parts.length ≥ 3 then String.intercalate " • " (parts.drop 2)
  else full_desc

/-- First run of four consecutive digits (`re.search(r"\d{4}", s)`). -/
def firstFourDigits : List Char → Option Nat
  | a :: b :: c :: d :: rest =>
    if a.isDigit && b.isDigit && c.isDigit && d.isDigit then
      some (natOfDigits [a, b, c, d])
    else firstFourDigits (b :: c :: d :: rest)
  | _ => none

/-- Raw year (source lines 617-645): the first four-digit number in the
  year tag's text, else the first year-shaped number found anywhere in the
  fragment's raw HTML, else `0`. -/
def computeYearRaw (l : Listing) : Nat :=
  match l.yearTagText with
  | some s => (firstFourDigits s.data).getD 0
  | none => l.yearRegexMatches.headD 0

/-- Source line 648: zero, pre-2000 or future years become
  `current_year - 2`. -/
def yearAdjust (cy y : Nat) : Nat :=
  if y = 0 ∨ y < 2000 ∨ y > cy then cy - 2 else y

/-- Source line 826: years at most 2016 or beyond the current year become
  the fabricated default `2020`. -/
def yearClamp (cy y : Nat) : Nat :=
  if y ≤ 2016 ∨ y > cy then 2020 else y

/-- Raw mileage (source lines 652-675): all digit characters of the
  mileage tag's text, else `0`. -/
def computeMileageRaw (l : Listing) : Nat :=
  match l.mileageTagText with
  | none => 0
  | some s =>
    let ds := s.data.filter Char.isDigit
    if ds.isEmpty then 0 else natOfDigits ds

/-- Source line 829: implausible mileage becomes the fabricated default
  `50000`. -/
def mileageClamp (m : Nat) : Nat :=
  if m > 500000 ∨ m < 10 then 50000 else m

/-- Fuel type (source lines 678-715): parameter probe text, else the
  capitalized fallback keyword; `"hybryda"` is widened to
  `"Hybryda Plug-in"`; when still empty, a default fabricated from title
  hints, ultimately `"Benzyna"`. -/
def computeFuelType (l : Listing) (full_name : String) : String :=
  let f1 :=
    match l.fuelTagText with
    | some t => t
    | none =>
      match l.fuelKeyword with
      | some k => pyCapitalize k
      | none => ""
  let f2 := if pyLower (pyStrip f1) = "hybryda" then "Hybryda Plug-in" else f1
  if f2 ≠ "" then f2
  else
    if ["hybrid", "hybryda", "phev", "e-tense"].any
        (fun t => hasSub (pyLower full_name).data t.data) then
      "Hybryda Plug-in"
    else if ["diesel", "bluehdi"].any
        (fun t => hasSub (pyLower full_name).data t.data) then "Diesel"
    else "Benzyna"

/-- Price (source lines 721-759): all digit characters of the price tag's
  text, else the `0` sentinel. -/
def computePrice (l : Listing) : Nat :=
  match l.priceTagText with
  | none => 0
  | some s =>
    let ds := s.data.filter Char.isDigit
    if ds.isEmpty then 0 else natOfDigits ds

/-- City with fallback (source lines 787-792). -/
def computeCity (l : Listing) : String :=
  let c := (parse_location (l.locationTagText.getD "")).1
  if c = "" then "Nieznana" else c

/-- Region with fallback (source lines 787-794). -/
def computeVoivodship (l : Listing) : String :=
  let v := (parse_location (l.locationTagText.getD "")).2
  if v = "" then "Nieznane" else v

/-- Seller type (source lines 797-819): `"Prywatny sprzedawca"` when the
  seller element mentions `prywatny`, else the dealer default `"Firma"`. -/
def computeSellerType (l : Listing) : String :=
  match l.sellerText with
  | some t =>
    if hasSub (pyLower t).data "prywatny".data then "Prywatny sprzedawca"
    else "Firma"
  | none => "Firma"

/-- The `Car` value built for a listing that passed the URL filter
  (source lines 519-851, straight-line part). -/
def buildCar (cy : Nat) (sd : String) (l : Listing)
    (linkText cleaned : String) : Car :=
  let full_name := computeFullName l linkText
  let full_desc := l.descText.getD ""
  let parts := computeParts full_desc
  let fuel_type := computeFuelType l full_name
  { auction_id := ""
    link := cleaned
    full_name := full_name
    description := computeDescription parts full_desc
    year := yearClamp cy (yearAdjust cy (computeYearRaw l))
    mileage_km := mileageClamp (computeMileageRaw l)
    engine_capacity := determine_engine_capacity full_name full_desc fuel_type
    engine_power := computeEnginePower parts
    fuel_type := fuel_type
    price_pln := computePrice l
    seller_type := computeSellerType l
    city := computeCity l
    voivodship := computeVoivodship l
    scrape_date := sd
    listing_status := "Active"
    version := extract_version full_name full_desc
    data_id := l.dataId }

/-- The per-fragment body of `extract_cars_from_html` (lines 448-852):
  `none` exactly when no link resolves or the cleaned URL fails the
  filter; otherwise the extracted record. -/
def extractCarFromListing (cy : Nat) (sd : String) (l : Listing) :
    Option Car :=
  match resolveATag l with
  | none => none
  | some a =>
    let cleaned := basic_url_cleanup a.1
    if passesUrlFilter cleaned then some (buildCar cy sd l a.2 cleaned)
    else none

/-- scraper.py `extract_cars_from_html` (lines 428-859): an empty result
  when the results container (`none`) or the listing enumeration (`[]`)
  fails, else one record per fragment that passes the URL filter, in
  document order. -/
def extract_cars_from_html (cy : Nat) (sd : String)
    (page : Option (List Listing)) : List Car :=
  match page with
  | none => []
  | some listings =>
    if listings.isEmpty then []
    else listings.filterMap (extractCarFromListing cy sd)

/-- Claim C7: the extractor omits a fragment exactly when no usable detail
  link can be resolved or the resolved, cleaned URL fails the product URL
  filter; every fragment whose URL passes yields a record, and skipping is
  a silent `continue` (the model is total — no error value exists).  Since
  `passesUrlFilter` is entailed by the strict prefix test, this also gives
  the claim under its narrower reading: a fragment whose URL starts with
  the required prefix always yields a record, and an omitted fragment
  always lacks a link or fails the prefix test. -/
theorem c7_record_iff_link_and_filter :
    ∀ (cy : Nat) (sd : String) (l : Listing),
      (extractCarFromListing cy sd l).isSome = true ↔
        ∃ a, resolveATag l = some a ∧
          passesUrlFilter (basic_url_cleanup a.1) = true := by
  intro cy sd l
  cases h : resolveATag l with
  | none => simp [extractCarFromListing, h]
  | some a =>
    by_cases hp : passesUrlFilter (basic_url_cleanup a.1) = true
    · simp [extractCarFromListing, h, hp]
    · simp [extractCarFromListing, h, hp]

/-- Fragment with a title link to the product detail page. -/
def c7Listing : Listing :=
  ⟨"123", some "DS 7",
    some ("/osobowe/oferta/ds-automobiles-ds-7-a.html", "DS 7"), [], none,
    none, none, [], none, none, none, none, none, none⟩

/-- Claim C7 witness: a fragment whose resolved link passes the filter
  yields a record. -/
theorem c7_record_iff_link_and_filter_witness :
    (extractCarFromListing 2025 "2025-01-01" c7Listing).isSome = true :=
  (c7_record_iff_link_and_filter 2025 "2025-01-01" c7Listing).mpr
    ⟨("/osobowe/oferta/ds-automobiles-ds-7-a.html", "DS 7"), rfl, by decide⟩

/-- Fragment with a detail link but no year information at all. -/
def c10Listing : Listing :=
  ⟨"", none, none,
    [("https://www.otomoto.pl/osobowe/oferta/ds-automobiles-ds-7-b.html",
      "DS 7 1.6")], none, none, none, [], none, none, none, none, none,
    none⟩

/-- Claim C10 counterexample: a record with a missing model year is
  emitted with year `current_year - 2` (here `2023` for a 2025 run), not
  with the fabricated default `2020` the claim names — line 649 of the
  source substitutes `datetime.now().year - 2` before the `2020` clamp of
  line 826 is consulted. -/
theorem c10_missing_year_default_counterexample :
    (extractCarFromListing 2025 "2025-06-01" c10Listing).map Car.year =
      some 2023 ∧ (2023 : Nat) ≠ 2020 := by
  exact ⟨by decide, by decide⟩

/-- The final year clamp keeps every emitted year in `[2017, cy]` once the
  current year is at least 2020. -/
theorem yearClamp_range (cy y : Nat) (h : 2020 ≤ cy) :
    2017 ≤ yearClamp cy y ∧ yearClamp cy y ≤ cy := by
  unfold yearClamp
  split_ifs with hc
  · omega
  · omega

/-- The mileage clamp keeps every emitted mileage in `[10, 500000]`. -/
theorem mileageClamp_range (m : Nat) :
    10 ≤ mileageClamp m ∧ mileageClamp m ≤ 500000 := by
  unfold mileageClamp
  split_ifs with hc
  · omega
  · omega

/-- Shape of the fuel-type default cascade: its result is non-empty. -/
theorem ite_fuel_ne (s : String) (a b : Bool) :
    (if s ≠ "" then s
     else if a then "Hybryda Plug-in"
     else if b then "Diesel" else "Benzyna") ≠ "" := by
  split_ifs with h1 h2 h3
  · exact h1
  · decide
  · decide
  · decide

/-- The fuel-type chain always ends in a non-empty string. -/
theorem computeFuelType_ne_empty (l : Listing) (full_name : String) :
    computeFuelType l full_name ≠ "" := by
  unfold computeFuelType
  exact ite_fuel_ne _ _ _

/-- Shape of the location default: its result is non-empty. -/
theorem ite_default_ne (s d : String) (hd : d ≠ "") :
    (if s = "" then d else s) ≠ "" := by
  split_ifs with h
  · exact hd
  · exact h

/-- The city fallback is non-empty. -/
theorem computeCity_ne_empty (l : Listing) : computeCity l ≠ "" := by
  unfold computeCity
  exact ite_default_ne _ _ (by decide)

/-- The region fallback is non-empty. -/
theorem computeVoivodship_ne_empty (l : Listing) :
    computeVoivodship l ≠ "" := by
  unfold computeVoivodship
  exact ite_default_ne _ _ (by decide)

/-- Claim C10 (amended): every emitted record has `year ∈ [2017, cy]`
  (for a run in year `cy ≥ 2020`), `mileage_km ∈ [10, 500000]`, and
  non-empty `fuel_type`, `city` and `voivodship`; implausible or missing
  values are replaced by fabricated defaults — out-of-range years by
  `2020` but *missing* years by `cy - 2`, mileage by `50000`, fuel by
  `"Benzyna"` (or a title-derived guess), location by
  `"Nieznana"`/`"Nieznane"` — so no record carries year 0, mileage 0, or
  an empty fuel type or location. -/
theorem c10_record_ranges_amended :
    ∀ (cy : Nat) (sd : String) (l : Listing) (car : Car),
      2020 ≤ cy → extractCarFromListing cy sd l = some car →
        2017 ≤ car.year ∧ car.year ≤ cy ∧ 10 ≤ car.mileage_km ∧
        car.mileage_km ≤ 500000 ∧ car.fuel_type ≠ "" ∧ car.city ≠ "" ∧
        car.voivodship ≠ "" := by
  intro cy sd l car hcy h
  unfold extractCarFromListing at h
  cases ha : resolveATag l with
  | none => rw [ha] at h; cases h
  | some a =>
    rw [ha] at h
    dsimp only at h
    by_cases hp : passesUrlFilter (basic_url_cleanup a.1) = true
    · rw [if_pos hp] at h
      injection h with h
      subst h
      refine ⟨(yearClamp_range cy _ hcy).1, (yearClamp_range cy _ hcy).2,
        (mileageClamp_range _).1, (mileageClamp_range _).2,
        computeFuelType_ne_empty l _, computeCity_ne_empty l,
        computeVoivodship_ne_empty l⟩
    · rw [if_neg hp] at h
      cases h

/-- Claim C10 amended-theorem witness: the invariants evaluated on the
  concrete year-less fragment of the counterexample, in a 2025 run. -/
theorem c10_record_ranges_amended_witness :
    2017 ≤ (buildCar 2025 "2025-06-01" c10Listing "DS 7 1.6"
      "https://www.otomoto.pl/osobowe/oferta/ds-automobiles-ds-7-b.html").year ∧
    (buildCar 2025 "2025-06-01" c10Listing "DS 7 1.6"
      "https://www.otomoto.pl/osobowe/oferta/ds-automobiles-ds-7-b.html").year ≤
      2025 ∧
    10 ≤ (buildCar 2025 "2025-06-01" c10Listing "DS 7 1.6"
      "https://www.otomoto.pl/osobowe/oferta/ds-automobiles-ds-7-b.html").mileage_km ∧
    (buildCar 2025 "2025-06-01" c10Listing "DS 7 1.6"
      "https://www.otomoto.pl/osobowe/oferta/ds-automobiles-ds-7-b.html").mileage_km ≤
      500000 ∧
    (buildCar 2025 "2025-06-01" c10Listing "DS 7 1.6"
      "https://www.otomoto.pl/osobowe/oferta/ds-automobiles-ds-7-b.html").fuel_type ≠
      "" ∧
    (buildCar 2025 "2025-06-01" c10Listing "DS 7 1.6"
      "https://www.otomoto.pl/osobowe/oferta/ds-automobiles-ds-7-b.html").city ≠
      "" ∧
    (buildCar 2025 "2025-06-01" c10Listing "DS 7 1.6"
      "https://www.otomoto.pl/osobowe/oferta/ds-automobiles-ds-7-b.html").voivodship ≠
      "" :=
  c10_record_ranges_amended 2025 "2025-06-01" c10Listing _ (by decide) rfl

/-! ## scraper.py: `get_total_auction_count_and_pages` (lines 313-368)

Inputs: the number matched by `(\d+)\s+ogłosz` in the `h1` text (`none`
when the tag is missing or does not match), the number from the first text
node matching the same pattern, and the digit-only entries of the
pagination widget (`int(li.get_text(strip=True))` for every `li` whose
text `isdigit()` — which includes `"0"`).  The `except` fallback
`(320, 10)` covers only exceptions of the DOM library, which the pure
model cannot raise. -/

/-- The twice-repeated estimation statement of the source (lines 348-350
  and 361-363): replace a still-default page count by the ceiling of
  `count / EXPECTED_PER_PAGE` when the count exceeds one page. -/
def paginationStep (tp ta : Nat) : Nat :=
  if tp = 1 ∧ ta > EXPECTED_PER_PAGE then
    (ta + EXPECTED_PER_PAGE - 1) / EXPECTED_PER_PAGE
  else tp

/-- scraper.py `get_total_auction_count_and_pages`. -/
def get_total_auction_count_and_pages (h1Count textCount : Option Nat)
    (pageNums : List Nat) : Nat × Nat :=
  let ta1 := h1Count.getD 0
  let ta2 := if ta1 = 0 then textCount.getD 0 else ta1
  let tp2 :=
    match pageNums with
    | [] => 1
    | _ => pageNums.foldl max 0
  let tp3 := paginationStep tp2 ta2
  let ta3 := if ta2 = 0 ∧ tp3 > 1 then tp3 * EXPECTED_PER_PAGE else ta2
  let ta4 := if ta3 = 0 then 320 else ta3
  (ta4, paginationStep tp3 ta4)

/-- Claim C9 counterexample: a page whose pagination widget's only
  digit-labelled entry is `"0"` (and which carries no counter text) makes
  the estimator return `total_pages = 0`, violating the claimed
  `total_pages >= 1` bound: `max(page_numbers)` is `0`, and every later
  repair step tests `total_pages == 1` and therefore leaves `0` alone. -/
theorem c9_total_pages_zero_counterexample :
    (get_total_auction_count_and_pages none none [0]).2 = 0 ∧
    ¬(1 ≤ (get_total_auction_count_and_pages none none [0]).2) := by
  exact ⟨rfl, by decide⟩

/-- One estimation step preserves a positive page count. -/
theorem paginationStep_pos (tp ta : Nat) (h : 1 ≤ tp) :
    1 ≤ paginationStep tp ta := by
  unfold paginationStep
  split_ifs with hc
  · have h32 : 32 < ta := by
      have := hc.2
      simpa [EXPECTED_PER_PAGE] using this
    have : 1 ≤ (ta + EXPECTED_PER_PAGE - 1) / EXPECTED_PER_PAGE := by
      rw [Nat.le_div_iff_mul_le (by simp [EXPECTED_PER_PAGE] : 0 < EXPECTED_PER_PAGE)]
      simp only [EXPECTED_PER_PAGE]
      omega
    exact this
  · exact h

/-- Claim C9 (amended): the estimator returns `total_pages >= 1` whenever
  the pagination widget contributes no digit entries or a positive
  maximum entry — the only escape is the degenerate widget of the
  counterexample, whose maximum digit entry is `0`.  With the counter text
  `"344 ogłoszeń"` as the only signal and the page size constant `32` it
  returns `(344, 11)` by ceiling division, and with no signal at all it
  falls back to `(320, 10)`. -/
theorem c9_pagination_amended :
    (∀ (h1Count textCount : Option Nat) (pageNums : List Nat),
      (pageNums = [] ∨ 0 < pageNums.foldl max 0) →
        1 ≤ (get_total_auction_count_and_pages h1Count textCount
          pageNums).2) ∧
    get_total_auction_count_and_pages none (some 344) [] = (344, 11) ∧
    get_total_auction_count_and_pages none none [] = (320, 10) := by
  refine ⟨?_, rfl, rfl⟩
  intro h1Count textCount pageNums hpn
  unfold get_total_auction_count_and_pages
  dsimp only
  apply paginationStep_pos
  apply paginationStep_pos
  rcases hpn with h | h
  · subst h
    exact Nat.le_refl 1
  · cases pageNums with
    | nil => exact Nat.le_refl 1
    | cons x xs => exact h

/-- Claim C9 amended-theorem witness: the positivity bound instantiated on
  the page whose only signal is the 344-listing counter. -/
theorem c9_pagination_amended_witness :
    1 ≤ (get_total_auction_count_and_pages none (some 344) []).2 :=
  c9_pagination_amended.1 none (some 344) [] (Or.inl rfl)

/-! ## scraper.py: `run_scraper` (lines 888-995)

The run is parameterized by the current year and scrape timestamp, the
page-count estimate obtained from the first page (the output of
`get_total_auction_count_and_pages`, modelled separately above), and a
fetch oracle: `fetch n = none` models `get_page_html` returning the empty
string for page `n`, and `fetch n = some page` a fetched page handed to
`extract_cars_from_html` (with `page = none` when its results container
cannot be found).  The database insertions performed per car return values
that the source only logs, so the model's observable result is the
accumulated `all_cars` list handed to the CSV export. -/

/-- The per-page car loop (source lines 909-913, 948-954): assign each car
  the positional id `"{counter}_{mileage}_{price}"`, threading the shared
  auction counter. -/
def assignIds : Nat → List Car → Nat × List Car
  | counter, [] => (counter, [])
  | counter, c :: cs =>
    let newId :=
      toString (counter + 1) ++ "_" ++ toString c.mileage_km ++ "_" ++
        toString c.price_pln
    let c2 := { c with auction_id := newId }
    let r := assignIds (counter + 1) cs
    (r.1, c2 :: r.2)

/-- The page loop of `run_scraper` (source lines 931-973), counting down
  the remaining pages of `range(2, pages_to_check + 1)`: a failed fetch
  `continue`s to the next page, a page with no extracted cars `break`s the
  whole loop, and otherwise the page's cars are accumulated. -/
def runLoop (cy : Nat) (sd : String)
    (fetch : Nat → Option (Option (List Listing))) :
    Nat → Nat → Nat → List Car
  | _, _, 0 => []
  | counter, current, remaining + 1 =>
    match fetch current with
    | none => runLoop cy sd fetch counter (current + 1) remaining
    | some page =>
      let cs := extract_cars_from_html cy sd page
      if cs.isEmpty then []
      else
        let r := assignIds counter cs
        r.2 ++ runLoop cy sd fetch r.1 (current + 1) remaining

/-- scraper.py `run_scraper`: abort (empty result) when the first page
  cannot be fetched; otherwise process the first page (even when it
  yields no cars) and run the page loop over pages
  `2 .. min(total_pages, MAX_PAGES_TO_CHECK)`. -/
def run_scraper (cy : Nat) (sd : String) (totalPages : Nat)
    (fetch : Nat → Option (Option (List Listing))) : List Car :=
  match fetch 1 with
  | none => []
  | some page1 =>
    let r := assignIds 0 (extract_cars_from_html cy sd page1)
    r.2 ++ runLoop cy sd fetch r.1 2 (min totalPages MAX_PAGES_TO_CHECK - 1)

/-- Fragment on page 1 of the C8 scenario. -/
def c8ListingA : Listing :=
  ⟨"a", none, none,
    [("https://www.otomoto.pl/osobowe/oferta/ds-automobiles-ds-7-a1.html",
      "DS 7")], none, none, none, [], none, none, none, none, none, none⟩

/-- Fragment on page 3 of the C8 scenario. -/
def c8ListingC : Listing :=
  ⟨"c", none, none,
    [("https://www.otomoto.pl/osobowe/oferta/ds-automobiles-ds-7-c1.html",
      "DS 7")], none, none, none, [], none, none, none, none, none, none⟩

/-- C8 scenario: page 2 is fetched but its results container is missing;
  page 3 holds a further listing. -/
def c8Fetch : Nat → Option (Option (List Listing))
  | 1 => some (some [c8ListingA])
  | 2 => some none
  | 3 => some (some [c8ListingC])
  | _ => some (some [])

/-- C8 scenario variant: the very first page is fetched but its results
  container is missing; page 2 holds a listing. -/
def c8FetchB : Nat → Option (Option (List Listing))
  | 1 => some none
  | 2 => some (some [c8ListingC])
  | _ => some (some [])

/-- Claim C8 counterexample.  First: when page 2 of 3 fails at page level
  (container miss), the run does not skip it and continue — it stops, so
  the car that page 3 would contribute is absent and only the single page-1
  car is collected.  Second: when the very first page fails at page level
  (container miss, a fetch that did succeed), the run does not abort — it
  proceeds to page 2 and collects its car. -/
theorem c8_break_not_continue_counterexample :
    (run_scraper 2025 "d" 3 c8Fetch).length = 1 ∧
    extract_cars_from_html 2025 "d" (some [c8ListingC]) ≠ [] ∧
    (run_scraper 2025 "d" 2 c8FetchB).length = 1 := by
  refine ⟨by decide, by decide, by decide⟩

/-- Claim C8 (amended): a fetch failure (empty page text) on the very
  first page aborts the run; a fetch failure on a later page skips that
  page and continues with the next one; an extraction failure (no
  container, no listings, or no car extracted) on a later page stops the
  run without visiting the remaining pages; and an extraction failure on
  the first page does not abort — the run proceeds to the remaining
  pages. -/
theorem c8_page_failure_amended :
    (∀ (cy : Nat) (sd : String) (tp : Nat)
        (fetch : Nat → Option (Option (List Listing))),
      fetch 1 = none → run_scraper cy sd tp fetch = []) ∧
    (∀ (cy : Nat) (sd : String)
        (fetch : Nat → Option (Option (List Listing)))
        (counter current remaining : Nat),
      fetch current = none →
        runLoop cy sd fetch counter current (remaining + 1) =
          runLoop cy sd fetch counter (current + 1) remaining) ∧
    (∀ (cy : Nat) (sd : String)
        (fetch : Nat → Option (Option (List Listing)))
        (counter current remaining : Nat)
        (page : Option (List Listing)),
      fetch current = some page →
      extract_cars_from_html cy sd page = [] →
        runLoop cy sd fetch counter current (remaining + 1) = []) ∧
    (∀ (cy : Nat) (sd : String) (tp : Nat)
        (fetch : Nat → Option (Option (List Listing)))
        (page1 : Option (List Listing)),
      fetch 1 = some page1 →
      extract_cars_from_html cy sd page1 = [] →
        run_scraper cy sd tp fetch =
          runLoop cy sd fetch 0 2 (min tp MAX_PAGES_TO_CHECK - 1)) := by
  refine ⟨?_, ?_, ?_, ?_⟩
  · intro cy sd tp fetch h
    simp only [run_scraper, h]
  · intro cy sd fetch counter current remaining h
    simp only [runLoop, h]
  · intro cy sd fetch counter current remaining page h1 h2
    simp [runLoop, h1, h2]
  · intro cy sd tp fetch page1 h1 h2
    simp [run_scraper, assignIds, h1, h2]

/-- Claim C8 amended-theorem witness: the first-page fetch abort and the
  later-page break applied to the concrete scenario. -/
theorem c8_page_failure_amended_witness :
    run_scraper 2025 "d" 3 (fun _ => none) = [] ∧
    runLoop 2025 "d" c8Fetch 1 2 2 = [] :=
  ⟨c8_page_failure_amended.1 2025 "d" 3 (fun _ => none) rfl,
   c8_page_failure_amended.2.2.1 2025 "d" c8Fetch 1 2 1 none rfl rfl⟩
